import Mathlib

/-!
Verification of the ensemble-inference and volumetric-reconstruction engine of
`src/inference.py` (function `generate_segmentations`, lines 120-196).

The embedding models the per-case processing loop of `generate_segmentations`:

* tensors are 4-dimensional (channels x Z x Y x X; the constant batch dimension
  of size 1 is dropped), with rational values standing in for floats, and are
  represented intensionally as a shape together with a total index function;
* `truncate` models the pad-stripping slice `pre_segs[:, :, 0:maxz, 0:maxy, 0:maxx]`
  (lines 169-171), including Python's negative-stop wrap-around semantics;
* `place` models the assignment
  `segs[0, :, slice(*crops_idx[0]), slice(*crops_idx[1]), slice(*crops_idx[2])] = pre_segs[0]`
  into `torch.zeros((1, 3, 155, 240, 240))` (lines 174-175), including torch's
  broadcast rule for the copy (each source axis must equal the destination span
  or be of size 1) and the RuntimeError (ShapeMismatch) otherwise;
* `stackMean` models `torch.stack(model_preds).mean(dim=0)` (line 181), which
  requires all stacked tensors to share one shape;
* `decodeField` models the label decoding (lines 184-191);
* `routeBound` / `stepModel` / `runLoop` model the per-model loop (lines 138-179),
  faithfully keeping `last_norm` fixed at `None` (it is initialised on line 138
  and never reassigned) and appending to `model_preds` both on line 160 (TTA
  branch) and on line 178;
* `runBatch` models the per-case loop (lines 124-196), which contains no
  exception handler: an error raised in one case aborts the whole loop.

Model weights, forward computation, TTA and device transfers are external
collaborators; a model is represented by its required normalisation variant and
its (post-sigmoid) output functions, and device transfers and model residency
are recorded as an event trace.
-/

/-- A dense 4-D tensor (channels x Z x Y x X) of rational values, given by its
shape and a total index function.  Models the `torch` tensors of the inference
path with the constant batch-1 dimension dropped. -/
structure Tensor4 where
  c : ℕ
  z : ℕ
  y : ℕ
  x : ℕ
  data : ℕ → ℕ → ℕ → ℕ → ℚ

/-- The per-axis padding added by `pad_batch1_to_compatible_size` (`pads` in the
source): the amounts to strip from the trailing end of each spatial axis. -/
structure PadSpec where
  pz : ℕ
  py : ℕ
  px : ℕ

/-- The crop indexes of a case (`crops_idx` in the source): three half-open
intervals locating the cropped volume inside the canonical 155 x 240 x 240
frame. -/
structure CropWindow where
  z0 : ℕ
  z1 : ℕ
  y0 : ℕ
  y1 : ℕ
  x0 : ℕ
  x1 : ℕ

/-- The error kinds the modelled code can actually raise:
`shapeMismatch` for the failed tensor assignment of line 175,
`unboundLocal` for Python's unbound-variable error when `inputs`/`pads`/
`crops_idx` were never assigned, and `stackMismatch` for `torch.stack`
on differently-shaped tensors (line 181). -/
inductive ErrKind where
  | shapeMismatch
  | unboundLocal
  | stackMismatch
deriving DecidableEq

/-- Device events of the per-model loop: `xfer v` is a host-to-device input
transfer (`inputs_minmax.cuda()` / `inputs_zscore.cuda()`, lines 144/148),
`load` is `model.cuda()` (line 151) and `unload` is `model.cpu()` (line 179). -/
inductive Event where
  | xfer (variant : String)
  | load
  | unload

/-- Length of the Python slice `t[0 : L - P]` on an axis of length `L`:
a negative stop wraps around (counts from the end), exactly as in
`pre_segs[:, :, 0:maxz, 0:maxy, 0:maxx]` with `maxz = size - pad`. -/
def truncAx (L P : ℕ) : ℕ :=
  if (L : ℤ) - (P : ℤ) < 0 then ((L : ℤ) + ((L : ℤ) - (P : ℤ))).toNat
  else min L (((L : ℤ) - (P : ℤ)).toNat)

/-- Pad removal (lines 169-171): slice each spatial axis to `size - pad`,
keeping the leading region.  The index function is unchanged; only the extents
shrink. -/
def truncate (t : Tensor4) (p : PadSpec) : Tensor4 :=
  ⟨t.c, truncAx t.z p.pz, truncAx t.y p.py, truncAx t.x p.px, t.data⟩

/-- Number of indices selected by the Python slice `slice(a, b)` on an axis of
length `L` (for non-negative `a`, `b`): both endpoints are clamped to `L`. -/
def pySpan (L a b : ℕ) : ℕ := min b L - min a L

/-- Source index used when a size-`srcDim` axis is broadcast against a
destination span: a size-1 axis always reads index 0. -/
def bcIdx (srcDim i : ℕ) : ℕ := if srcDim = 1 then 0 else i

/-- The canonical-frame placement of lines 174-175: allocate
`torch.zeros((1, 3, 155, 240, 240))` and assign the truncated prediction into
the crop window.  The assignment succeeds iff each source axis matches the
destination span or has size 1 (torch's broadcast rule for `copy_`); otherwise
it raises a shape-mismatch RuntimeError.  Voxels outside the window stay 0. -/
def place (t : Tensor4) (w : CropWindow) : Except ErrKind Tensor4 :=
  if (t.c = 3 ∨ t.c = 1)
      ∧ (t.z = pySpan 155 w.z0 w.z1 ∨ t.z = 1)
      ∧ (t.y = pySpan 240 w.y0 w.y1 ∨ t.y = 1)
      ∧ (t.x = pySpan 240 w.x0 w.x1 ∨ t.x = 1) then
    Except.ok ⟨3, 155, 240, 240, fun c i j k =>
      if c < 3 ∧ (min w.z0 155 ≤ i ∧ i < min w.z1 155)
          ∧ (min w.y0 240 ≤ j ∧ j < min w.y1 240)
          ∧ (min w.x0 240 ≤ k ∧ k < min w.x1 240) then
        t.data (bcIdx t.c c) (bcIdx t.z (i - min w.z0 155))
          (bcIdx t.y (j - min w.y0 240)) (bcIdx t.x (k - min w.x0 240))
      else 0⟩
  else Except.error ErrKind.shapeMismatch

/-- The Reconstruction Unit (lines 169-175): strip the pads, then place the
truncated prediction into the canonical frame. -/
def reconstruct (raw : Tensor4) (p : PadSpec) (w : CropWindow) : Except ErrKind Tensor4 :=
  place (truncate raw p) w

/-- `torch.stack(model_preds).mean(dim=0)` (line 181): requires a non-empty
list of identically-shaped tensors and reduces them by elementwise arithmetic
mean. -/
def stackMean : List Tensor4 → Except ErrKind Tensor4
  | [] => Except.error ErrKind.stackMismatch
  | h :: t =>
    if t.all (fun u => u.c == h.c && u.z == h.z && u.y == h.y && u.x == h.x) then
      Except.ok ⟨h.c, h.z, h.y, h.x, fun c i j k =>
        (((h :: t).map (fun u => u.data c i j k)).sum) / (((h :: t).length : ℕ) : ℚ)⟩
    else Except.error ErrKind.stackMismatch

/-- Channel thresholding `pre_segs[0].numpy() > 0.5` (line 184). -/
def thresh (f : Tensor4) (c i j k : ℕ) : Bool := decide (f.data c i j k > (1 : ℚ) / 2)

/-- `et = segs[0]` (line 185). -/
def etMask (f : Tensor4) (i j k : ℕ) : Bool := thresh f 0 i j k

/-- `net = np.logical_and(segs[1], np.logical_not(et))` (line 186). -/
def netMask (f : Tensor4) (i j k : ℕ) : Bool := thresh f 1 i j k && !(etMask f i j k)

/-- `ed = np.logical_and(segs[2], np.logical_not(segs[1]))` (line 187). -/
def edMask (f : Tensor4) (i j k : ℕ) : Bool := thresh f 2 i j k && !(thresh f 1 i j k)

/-- A numpy masked assignment `labelmap[mask] = v` as a pointwise update. -/
def assignLabel (mask : ℕ → ℕ → ℕ → Bool) (v : ℕ) (lab : ℕ → ℕ → ℕ → ℕ) :
    ℕ → ℕ → ℕ → ℕ :=
  fun i j k => if mask i j k then v else lab i j k

/-- The Label Decoder (lines 188-191): `labelmap = np.zeros(...)`, then
`labelmap[et] = 4`, `labelmap[net] = 1`, `labelmap[ed] = 2` in that order
(a later assignment overwrites an earlier one where masks overlap). -/
def decodeField (f : Tensor4) : ℕ → ℕ → ℕ → ℕ :=
  assignLabel (edMask f) 2 (assignLabel (netMask f) 1
    (assignLabel (etMask f) 4 (fun _ _ _ => 0)))

/-- The Label Decoder as worded by the specification, per voxel: threshold each
channel at 0.5, set `enhancing = mask0`, `necrotic = mask1 AND NOT enhancing`,
`edema = mask2 AND NOT mask1`, initialise the output to 0, then assign
enhancing to 4, then necrotic to 1, then edema to 2.  Used to compare the
array-level source pipeline against the claimed per-voxel description. -/
def decodeVoxelSpec (q0 q1 q2 : ℚ) : ℕ :=
  let m0 := decide (q0 > (1 : ℚ) / 2)
  let m1 := decide (q1 > (1 : ℚ) / 2)
  let m2 := decide (q2 > (1 : ℚ) / 2)
  let enhancing := m0
  let necrotic := m1 && !enhancing
  let edema := m2 && !m1
  let out0 : ℕ := 0
  let out1 := if enhancing then 4 else out0
  let out2 := if necrotic then 1 else out1
  if edema then 2 else out2

/-- An ensemble member: its required normalisation variant (the string read
from its training config) and its output collaborators.  `fwd` is the
post-sigmoid single forward pass (lines 163-167, with the auxiliary
deep-supervision head already discarded); `ttaFn` is `apply_simple_tta`
(line 159), returning a probability tensor. -/
structure ModelDesc where
  norm : String
  fwd : Tensor4 → Tensor4
  ttaFn : Tensor4 → Tensor4

/-- One case of the batch: patient id and the two pre-normalised, pre-padded
input streams with their pad amounts and crop indexes (lines 126-136). -/
structure CaseData where
  pid : ℕ
  minmaxIn : Tensor4 × PadSpec × CropWindow
  zscoreIn : Tensor4 × PadSpec × CropWindow

/-- State of the per-model loop of one case (lines 137-179): `lastNorm` is
`last_norm`, `bound` is the binding of the Python locals
`inputs`/`pads`/`crops_idx` (none while they are still unassigned), `preds` is
`model_preds`, `trace` the device-event history, and `err` the pending
exception (an exception aborts the rest of the loop). -/
structure LoopState where
  lastNorm : Option String
  bound : Option (Tensor4 × PadSpec × CropWindow)
  preds : List Tensor4
  trace : List Event
  err : Option ErrKind

/-- Loop entry state: `model_preds = []`, `last_norm = None`, nothing bound. -/
def initState : LoopState := ⟨none, none, [], [], none⟩

/-- The Normalization Router's binding decision (lines 141-150): if the current
variant equals `last_norm`, keep the current binding (`pass`); else bind the
minmax or zscore stream; an unrecognised variant falls through every branch and
leaves the binding unchanged. -/
def routeBound (cd : CaseData) (s : LoopState) (m : ModelDesc) :
    Option (Tensor4 × PadSpec × CropWindow) :=
  if s.lastNorm = some m.norm then s.bound
  else if m.norm = "minmax" then some cd.minmaxIn
  else if m.norm = "zscore" then some cd.zscoreIn
  else s.bound

/-- The device transfers performed by the router branch that was taken:
`inputs_minmax.cuda()` / `inputs_zscore.cuda()` emit a transfer event, the
`pass` branch and the fall-through emit none. -/
def routeEvents (s : LoopState) (m : ModelDesc) : List Event :=
  if s.lastNorm = some m.norm then []
  else if m.norm = "minmax" then [Event.xfer "minmax"]
  else if m.norm = "zscore" then [Event.xfer "zscore"]
  else []

/-- One iteration of the per-model loop (lines 140-179).  Faithful to the
source: `last_norm` is never reassigned; in the TTA branch `model_preds`
receives both the raw TTA output (line 160) and the reconstructed field
(line 178); a raised exception skips `model.cpu()` and freezes the loop. -/
def stepModel (cd : CaseData) (tf : Bool) (s : LoopState) (m : ModelDesc) : LoopState :=
  if s.err.isSome then s
  else
    match routeBound cd s m with
    | none =>
      { s with bound := none,
               trace := s.trace ++ (routeEvents s m ++ [Event.load]),
               err := some ErrKind.unboundLocal }
    | some (inputs, pads, crops) =>
      if tf then
        match reconstruct (m.ttaFn inputs) pads crops with
        | Except.error e =>
          { s with bound := some (inputs, pads, crops),
                   preds := s.preds ++ [m.ttaFn inputs],
                   trace := s.trace ++ (routeEvents s m ++ [Event.load]),
                   err := some e }
        | Except.ok segs =>
          { s with bound := some (inputs, pads, crops),
                   preds := (s.preds ++ [m.ttaFn inputs]) ++ [segs],
                   trace := s.trace ++ (routeEvents s m ++ [Event.load, Event.unload]) }
      else
        match reconstruct (m.fwd inputs) pads crops with
        | Except.error e =>
          { s with bound := some (inputs, pads, crops),
                   trace := s.trace ++ (routeEvents s m ++ [Event.load]),
                   err := some e }
        | Except.ok segs =>
          { s with bound := some (inputs, pads, crops),
                   preds := s.preds ++ [segs],
                   trace := s.trace ++ (routeEvents s m ++ [Event.load, Event.unload]) }

/-- The whole per-model loop of one case (`for model, normalisation in
zip(models, normalisations)`). -/
def runLoop (cd : CaseData) (tf : Bool) (ms : List ModelDesc) : LoopState :=
  List.foldl (stepModel cd tf) initState ms

/-- Processing of one case after the model loop (lines 181-196): average the
accumulated predictions and decode the label volume.  Any pending exception is
surfaced, tagged with the patient id. -/
def processCase (ms : List ModelDesc) (tf : Bool) (cd : CaseData) :
    Except (ℕ × ErrKind) (ℕ × (ℕ → ℕ → ℕ → ℕ)) :=
  match (runLoop cd tf ms).err with
  | some e => Except.error (cd.pid, e)
  | none =>
    match stackMean (runLoop cd tf ms).preds with
    | Except.error e => Except.error (cd.pid, e)
    | Except.ok mean => Except.ok (cd.pid, decodeField mean)

/-- The per-case loop of `generate_segmentations` (line 124 onwards).  The
source contains no exception handler, so the first error raised while
processing a case aborts the whole loop; the written outputs are the patient
ids of the cases completed before the error. -/
def runBatch (ms : List ModelDesc) (tf : Bool) : List CaseData → List ℕ × Option (ℕ × ErrKind)
  | [] => ([], none)
  | cd :: rest =>
    match processCase ms tf cd with
    | Except.error e => ([], some e)
    | Except.ok (pid, _) =>
      let r := runBatch ms tf rest
      (pid :: r.1, r.2)

/-- The error component of an `Except`, if any. -/
def errOf {ε α : Type} (r : Except ε α) : Option ε :=
  match r with
  | Except.error e => some e
  | Except.ok _ => none

/-- Whether an `Except` is a success. -/
def isOkB {ε α : Type} (r : Except ε α) : Bool :=
  match r with
  | Except.ok _ => true
  | Except.error _ => false

/-- The index function of a successful tensor result (zero function on error). -/
def okData {ε : Type} (r : Except ε Tensor4) : ℕ → ℕ → ℕ → ℕ → ℚ :=
  match r with
  | Except.ok u => u.data
  | Except.error _ => fun _ _ _ _ => 0

/-- Effect of one device event on the number of models resident on the
accelerator. -/
def resStep (n : ℕ) (e : Event) : ℕ :=
  match e with
  | Event.load => n + 1
  | Event.unload => n - 1
  | Event.xfer _ => n

/-- Number of models resident after a list of events, starting from `n`. -/
def resFrom (n : ℕ) (evs : List Event) : ℕ := evs.foldl resStep n

/-- Number of models resident after a list of events, starting from zero. -/
def resCount (evs : List Event) : ℕ := resFrom 0 evs

/-- A trace block keeps the resident count at most 1 at every prefix. -/
def blockOk (b : List Event) : Prop := ∀ m, resFrom 0 (b.take m) ≤ 1

/-- Loop-state invariant used for the residency claim: every instant so far has
at most one resident model, and in the absence of a pending exception the count
is back to zero. -/
def StateOk (s : LoopState) : Prop :=
  (∀ n, resCount (s.trace.take n) ≤ 1) ∧ (s.err = none → resCount s.trace = 0)

/-- Whether an event is a device input transfer. -/
def isXferEv : Event → Bool
  | Event.xfer _ => true
  | _ => false

/-- Number of input transfers in a trace. -/
def countXfers (evs : List Event) : ℕ := evs.countP isXferEv

/-- Constant tensor of the given shape. -/
def constT (c z y x : ℕ) (v : ℚ) : Tensor4 := ⟨c, z, y, x, fun _ _ _ _ => v⟩

/-- Zero padding. -/
def pads0 : PadSpec := ⟨0, 0, 0⟩

/-- A 2 x 2 x 2 crop window at the origin of the canonical frame. -/
def win2 : CropWindow := ⟨0, 2, 0, 2, 0, 2⟩

/-- A case whose cropped inputs fit `win2` exactly. -/
def goodCase : CaseData :=
  ⟨2, (constT 3 2 2 2 ((1 : ℚ) / 2), pads0, win2), (constT 3 2 2 2 ((1 : ℚ) / 2), pads0, win2)⟩

/-- A case whose cropped inputs are larger than `win2` on every spatial axis. -/
def badCase : CaseData :=
  ⟨1, (constT 3 3 3 3 ((1 : ℚ) / 2), pads0, win2), (constT 3 3 3 3 ((1 : ℚ) / 2), pads0, win2)⟩

/-- A minmax model whose forward pass returns its input unchanged. -/
def mFit : ModelDesc := ⟨"minmax", fun t => t, fun t => t⟩

/-- A model declaring an unrecognised normalisation variant. -/
def mFoo : ModelDesc := ⟨"foo", fun t => t, fun t => t⟩

/-- A minmax model whose TTA collaborator returns a tensor fitting `win2`. -/
def ttaModel : ModelDesc := ⟨"minmax", fun t => t, fun _ => constT 3 2 2 2 ((9 : ℚ) / 10)⟩

/-! ### Arithmetic helper lemmas -/

/-- Under the PadSpec invariant `pad <= length`, the Python slice
`t[0 : L - P]` has length `L - P`. -/
theorem truncAx_sub (L P : ℕ) (h : P ≤ L) : truncAx L P = L - P := by
  unfold truncAx
  rw [if_neg (by omega)]
  have ht : ((L : ℤ) - (P : ℤ)).toNat = L - P := by omega
  rw [ht]
  exact Nat.min_eq_right (Nat.sub_le L P)

/-- Stripping exactly the added padding recovers the unpadded extent. -/
theorem truncAx_exact (a P : ℕ) : truncAx (a + P) P = a := by
  rw [truncAx_sub (a + P) P (Nat.le_add_left P a)]
  omega

/-- A slice lying inside the axis selects `b - a` indices. -/
theorem pySpan_eq {L a b : ℕ} (hb : b ≤ L) (hab : a ≤ b) : pySpan L a b = b - a := by
  unfold pySpan
  rw [Nat.min_eq_left hb, Nat.min_eq_left (hab.trans hb)]

/-! ### Device-residency helper lemmas -/

theorem resFrom_append (n : ℕ) (a b : List Event) :
    resFrom n (a ++ b) = resFrom (resFrom n a) b := by
  simp [resFrom, List.foldl_append]

/-- Appending a prefix-bounded block to a balanced prefix-bounded trace keeps
every prefix of the result bounded by one resident model. -/
theorem prefix_le_of_append (A B : List Event) (hA : ∀ n, resCount (A.take n) ≤ 1)
    (hA0 : resCount A = 0) (hB : blockOk B) : ∀ n, resCount ((A ++ B).take n) ≤ 1 := by
  intro n
  rw [List.take_append_eq_append_take]
  by_cases h : n ≤ A.length
  · have hz : n - A.length = 0 := Nat.sub_eq_zero_of_le h
    rw [hz]
    simpa [resCount, resFrom_append] using hA n
  · have hA' : A.take n = A := List.take_of_length_le (by omega)
    rw [hA', resCount, resFrom_append]
    have h0' : resFrom 0 A = 0 := hA0
    rw [h0']
    exact hB _

theorem blockOk_load : blockOk [Event.load] := by
  intro m
  match m with
  | 0 => decide
  | m + 1 => simp [List.take_succ_cons, List.take_nil, resFrom, resStep]

theorem blockOk_xfer_load (v : String) : blockOk [Event.xfer v, Event.load] := by
  intro m
  match m with
  | 0 => simp [List.take_zero, resFrom]
  | 1 => simp [List.take_succ_cons, List.take_nil, resFrom, resStep]
  | m + 2 => simp [List.take_succ_cons, List.take_nil, resFrom, resStep]

theorem blockOk_load_unload : blockOk [Event.load, Event.unload] := by
  intro m
  match m with
  | 0 => decide
  | 1 => decide
  | m + 2 => simp [List.take_succ_cons, List.take_nil, resFrom, resStep]

theorem blockOk_xfer_load_unload (v : String) :
    blockOk [Event.xfer v, Event.load, Event.unload] := by
  intro m
  match m with
  | 0 => simp [List.take_zero, resFrom]
  | 1 => simp [List.take_succ_cons, List.take_nil, resFrom, resStep]
  | 2 => simp [List.take_succ_cons, List.take_nil, resFrom, resStep]
  | m + 3 => simp [List.take_succ_cons, List.take_nil, resFrom, resStep]

/-- The router emits no transfer or exactly one transfer per iteration. -/
theorem routeEvents_shape (s : LoopState) (m : ModelDesc) :
    routeEvents s m = [] ∨ ∃ v, routeEvents s m = [Event.xfer v] := by
  unfold routeEvents
  split_ifs
  · exact Or.inl rfl
  · exact Or.inr ⟨"minmax", rfl⟩
  · exact Or.inr ⟨"zscore", rfl⟩
  · exact Or.inl rfl

theorem blockOk_route_load (s : LoopState) (m : ModelDesc) :
    blockOk (routeEvents s m ++ [Event.load]) := by
  rcases routeEvents_shape s m with h | ⟨v, h⟩ <;> rw [h]
  · exact blockOk_load
  · exact blockOk_xfer_load v

theorem blockOk_route_load_unload (s : LoopState) (m : ModelDesc) :
    blockOk (routeEvents s m ++ [Event.load, Event.unload]) := by
  rcases routeEvents_shape s m with h | ⟨v, h⟩ <;> rw [h]
  · exact blockOk_load_unload
  · exact blockOk_xfer_load_unload v

theorem balanced_route_load_unload (s : LoopState) (m : ModelDesc) :
    resFrom 0 (routeEvents s m ++ [Event.load, Event.unload]) = 0 := by
  rcases routeEvents_shape s m with h | ⟨v, h⟩ <;> rw [h] <;> rfl

/-- Every loop iteration preserves the residency invariant: a completed
iteration loads and then unloads the model; a failing iteration loads at most
one model and freezes the loop. -/
theorem stepModel_stateOk (cd : CaseData) (tf : Bool) (m : ModelDesc) (s : LoopState)
    (h : StateOk s) : StateOk (stepModel cd tf s m) := by
  cases herr : s.err with
  | some e =>
    have hid : stepModel cd tf s m = s := by
      unfold stepModel
      rw [if_pos (by rw [herr]; rfl)]
    rw [hid]
    exact h
  | none =>
    have h0 : resCount s.trace = 0 := h.2 herr
    unfold stepModel
    rw [if_neg (by simp [herr])]
    split
    · exact ⟨prefix_le_of_append s.trace _ h.1 h0 (blockOk_route_load s m),
        fun hc => Option.noConfusion hc⟩
    · split
      · split
        · exact ⟨prefix_le_of_append s.trace _ h.1 h0 (blockOk_route_load s m),
            fun hc => Option.noConfusion hc⟩
        · refine ⟨prefix_le_of_append s.trace _ h.1 h0 (blockOk_route_load_unload s m), ?_⟩
          intro _
          show resFrom 0 (s.trace ++ (routeEvents s m ++ [Event.load, Event.unload])) = 0
          rw [resFrom_append]
          have h0' : resFrom 0 s.trace = 0 := h0
          rw [h0']
          exact balanced_route_load_unload s m
      · split
        · exact ⟨prefix_le_of_append s.trace _ h.1 h0 (blockOk_route_load s m),
            fun hc => Option.noConfusion hc⟩
        · refine ⟨prefix_le_of_append s.trace _ h.1 h0 (blockOk_route_load_unload s m), ?_⟩
          intro _
          show resFrom 0 (s.trace ++ (routeEvents s m ++ [Event.load, Event.unload])) = 0
          rw [resFrom_append]
          have h0' : resFrom 0 s.trace = 0 := h0
          rw [h0']
          exact balanced_route_load_unload s m

theorem foldl_stateOk (cd : CaseData) (tf : Bool) (ms : List ModelDesc) :
    ∀ s : LoopState, StateOk s → StateOk (List.foldl (stepModel cd tf) s ms) := by
  induction ms with
  | nil => intro s h; exact h
  | cons m rest ih => intro s h; exact ih _ (stepModel_stateOk cd tf m s h)

/-- A raised exception freezes the rest of the per-model loop. -/
theorem foldl_frozen (cd : CaseData) (tf : Bool) (ms : List ModelDesc) :
    ∀ s : LoopState, s.err.isSome = true → List.foldl (stepModel cd tf) s ms = s := by
  induction ms with
  | nil => intro s _; rfl
  | cons a rest ih =>
    intro s hs
    rw [List.foldl_cons, show stepModel cd tf s a = s from by unfold stepModel; rw [if_pos hs]]
    exact ih s hs

/-! ### Claim theorems -/

/-- Claim C1 (code evaluation at the failing input): with test-time
augmentation requested, the per-model loop accumulates TWO prediction tensors
for a single ensemble member — the raw TTA output appended on line 160 and the
reconstructed canonical field appended on line 178 — and the subsequent
`torch.stack` fails on the mismatched shapes; without TTA exactly one field per
member is accumulated.  This contradicts the claim that exactly one
PredictionField is accumulated per member whether or not TTA is requested. -/
theorem tta_appends_two_fields_per_member :
    (runLoop goodCase true [ttaModel]).preds.length = 2
    ∧ errOf (processCase [ttaModel] true goodCase) = some (2, ErrKind.stackMismatch)
    ∧ (runLoop goodCase false [ttaModel]).preds.length = 1 := by
  decide

/-- Claim C2 (counterexample): a per-case ShapeMismatch error is NOT caught at
the case-processing boundary.  In a batch of two cases where the first raises
ShapeMismatch and the second alone would succeed, the run aborts with the first
case's error and produces no output at all — the second case is never
processed, contradicting "processing continues with the next case". -/
theorem case_error_aborts_batch_cex :
    errOf (processCase [mFit] false badCase) = some (1, ErrKind.shapeMismatch)
    ∧ errOf (processCase [mFit] false goodCase) = none
    ∧ (runBatch [mFit] false [badCase, goodCase]).1 = []
    ∧ (runBatch [mFit] false [badCase, goodCase]).2 = some (1, ErrKind.shapeMismatch) := by
  decide

/-- Claim C2 (amended): there is no error handler at the case-processing
boundary: the first error raised while processing a case terminates the whole
batch run with that case's patient identifier and error kind, and no later case
is processed. -/
theorem case_error_aborts_batch (ms : List ModelDesc) (tf : Bool) (cd : CaseData)
    (rest : List CaseData) (e : ℕ × ErrKind)
    (h : errOf (processCase ms tf cd) = some e) :
    runBatch ms tf (cd :: rest) = ([], some e) := by
  have h2 : processCase ms tf cd = Except.error e := by
    cases hp : processCase ms tf cd with
    | error a =>
      rw [hp] at h
      simp only [errOf, Option.some.injEq] at h
      rw [h]
    | ok a =>
      rw [hp] at h
      simp [errOf] at h
  simp [runBatch, h2]

/-- Witness for C2 (amended) at a concrete two-case batch. -/
theorem case_error_aborts_batch_witness :
    errOf (processCase [mFit] false badCase) = some (1, ErrKind.shapeMismatch)
    ∧ runBatch [mFit] false [badCase, goodCase] = ([], some (1, ErrKind.shapeMismatch)) :=
  ⟨by decide, case_error_aborts_batch [mFit] false badCase [goodCase]
    (1, ErrKind.shapeMismatch) (by decide)⟩

/-- Claim C3 (code evaluation at the failing input): for two consecutive models
that both require the minmax variant, the loop performs TWO input transfers —
`last_norm` is initialised to `None` on line 138 and never reassigned, so the
reuse test `normalisation == last_norm` is always false and the skip never
happens.  The claim's reuse (one transfer for the second model) does not occur;
the loop nevertheless completes with the same bindings, so only behaviour
covered by the "pure optimization" clause differs. -/
theorem same_norm_retransfers_eval :
    [mFit, mFit].map ModelDesc.norm = ["minmax", "minmax"]
    ∧ countXfers ((runLoop goodCase false [mFit, mFit]).trace) = 2
    ∧ (runLoop goodCase false [mFit, mFit]).lastNorm = none
    ∧ (runLoop goodCase false [mFit, mFit]).err = none := by
  decide

/-- Claim C4 (counterexample): a truncated tensor whose z-axis has size 1
exceeds an empty crop-window span (size 0), yet the placement succeeds —
torch's broadcast rule lets the size-1 axis broadcast into the empty
destination and the plane is silently dropped, so "dimensions exceed the span
implies ShapeMismatch" is false as universally stated. -/
theorem broadcast_skips_shape_check_cex :
    truncAx 1 0 = 1 ∧ pySpan 155 5 5 = 0
    ∧ isOkB (reconstruct (constT 3 1 2 2 ((1 : ℚ) / 2)) pads0 ⟨5, 5, 0, 2, 0, 2⟩) = true := by
  decide

/-- Claim C4 (amended): if on some spatial axis the truncated (pad-stripped)
size is at least 2 and exceeds the crop window's span, reconstruction fails
with ShapeMismatch (the data is never silently clipped or wrapped); only a
size-1 axis can escape the check, by broadcasting. -/
theorem oversize_truncated_tensor_shape_mismatch (raw : Tensor4) (p : PadSpec) (w : CropWindow)
    (h : (2 ≤ truncAx raw.z p.pz ∧ pySpan 155 w.z0 w.z1 < truncAx raw.z p.pz)
       ∨ (2 ≤ truncAx raw.y p.py ∧ pySpan 240 w.y0 w.y1 < truncAx raw.y p.py)
       ∨ (2 ≤ truncAx raw.x p.px ∧ pySpan 240 w.x0 w.x1 < truncAx raw.x p.px)) :
    reconstruct raw p w = Except.error ErrKind.shapeMismatch := by
  unfold reconstruct place
  rw [if_neg (by
    rintro ⟨-, hz, hy, hx⟩
    simp only [truncate] at hz hy hx
    rcases h with ⟨h2, hl⟩ | ⟨h2, hl⟩ | ⟨h2, hl⟩
    · rcases hz with he | he <;> omega
    · rcases hy with he | he <;> omega
    · rcases hx with he | he <;> omega)]

/-- Witness for C4 (amended): a 3-long z-axis against a 2-long window span. -/
theorem oversize_truncated_tensor_shape_mismatch_witness :
    ((2 : ℕ) ≤ truncAx 3 0 ∧ pySpan 155 0 2 < truncAx 3 0)
    ∧ reconstruct (constT 3 3 2 2 ((1 : ℚ) / 2)) pads0 win2
      = Except.error ErrKind.shapeMismatch :=
  ⟨⟨by decide, by decide⟩,
    oversize_truncated_tensor_shape_mismatch (constT 3 3 2 2 ((1 : ℚ) / 2)) pads0 win2
      (Or.inl ⟨by decide, by decide⟩)⟩

/-- Claim C5: for every pad spec and crop window lying fully inside the
canonical 3 x 155 x 240 x 240 frame, reconstructing a raw tensor of constant
value `v` (sized as the window's spans plus the pads) succeeds and yields `v`
at exactly the voxels inside the window and exactly 0 at every canonical-frame
voxel outside it. -/
theorem reconstruct_constant_inside_window
    (p : PadSpec) (w : CropWindow) (v : ℚ) (raw : Tensor4)
    (hz01 : w.z0 ≤ w.z1) (hz1 : w.z1 ≤ 155)
    (hy01 : w.y0 ≤ w.y1) (hy1 : w.y1 ≤ 240)
    (hx01 : w.x0 ≤ w.x1) (hx1 : w.x1 ≤ 240)
    (hrc : raw.c = 3)
    (hrz : raw.z = (w.z1 - w.z0) + p.pz)
    (hry : raw.y = (w.y1 - w.y0) + p.py)
    (hrx : raw.x = (w.x1 - w.x0) + p.px)
    (hval : ∀ a b c d, raw.data a b c d = v)
    (c i j k : ℕ) (hc : c < 3) (_hi : i < 155) (_hj : j < 240) (_hk : k < 240) :
    isOkB (reconstruct raw p w) = true
    ∧ okData (reconstruct raw p w) c i j k
      = if (w.z0 ≤ i ∧ i < w.z1) ∧ (w.y0 ≤ j ∧ j < w.y1) ∧ (w.x0 ≤ k ∧ k < w.x1)
        then v else 0 := by
  have tc : (truncate raw p).c = 3 := by simp only [truncate]; exact hrc
  have tz : (truncate raw p).z = w.z1 - w.z0 := by
    simp only [truncate]; rw [hrz]; exact truncAx_exact _ _
  have ty : (truncate raw p).y = w.y1 - w.y0 := by
    simp only [truncate]; rw [hry]; exact truncAx_exact _ _
  have tx : (truncate raw p).x = w.x1 - w.x0 := by
    simp only [truncate]; rw [hrx]; exact truncAx_exact _ _
  have sz : pySpan 155 w.z0 w.z1 = w.z1 - w.z0 := pySpan_eq hz1 hz01
  have sy : pySpan 240 w.y0 w.y1 = w.y1 - w.y0 := pySpan_eq hy1 hy01
  have sx : pySpan 240 w.x0 w.x1 = w.x1 - w.x0 := pySpan_eq hx1 hx01
  have hcond : ((truncate raw p).c = 3 ∨ (truncate raw p).c = 1)
      ∧ ((truncate raw p).z = pySpan 155 w.z0 w.z1 ∨ (truncate raw p).z = 1)
      ∧ ((truncate raw p).y = pySpan 240 w.y0 w.y1 ∨ (truncate raw p).y = 1)
      ∧ ((truncate raw p).x = pySpan 240 w.x0 w.x1 ∨ (truncate raw p).x = 1) :=
    ⟨Or.inl tc, Or.inl (by rw [tz, sz]), Or.inl (by rw [ty, sy]), Or.inl (by rw [tx, sx])⟩
  constructor
  · unfold reconstruct place
    rw [if_pos hcond]
    rfl
  · unfold reconstruct place
    rw [if_pos hcond]
    show (if c < 3 ∧ (min w.z0 155 ≤ i ∧ i < min w.z1 155)
          ∧ (min w.y0 240 ≤ j ∧ j < min w.y1 240)
          ∧ (min w.x0 240 ≤ k ∧ k < min w.x1 240) then
        (truncate raw p).data (bcIdx (truncate raw p).c c)
          (bcIdx (truncate raw p).z (i - min w.z0 155))
          (bcIdx (truncate raw p).y (j - min w.y0 240))
          (bcIdx (truncate raw p).x (k - min w.x0 240))
      else 0) = _
    simp only [Nat.min_eq_left (hz01.trans hz1), Nat.min_eq_left hz1,
      Nat.min_eq_left (hy01.trans hy1), Nat.min_eq_left hy1,
      Nat.min_eq_left (hx01.trans hx1), Nat.min_eq_left hx1]
    by_cases hin : (w.z0 ≤ i ∧ i < w.z1) ∧ (w.y0 ≤ j ∧ j < w.y1) ∧ (w.x0 ≤ k ∧ k < w.x1)
    · rw [if_pos ⟨hc, hin⟩, if_pos hin]
      simp only [truncate]
      exact hval _ _ _ _
    · rw [if_neg (fun hcc => hin hcc.2), if_neg hin]

/-- Witness for C5: a 2 x 2 x 2 window at the origin with pads (1, 0, 2) and
constant value 3/4, checked at one inside voxel and one outside voxel. -/
theorem reconstruct_constant_inside_window_witness :
    isOkB (reconstruct (constT 3 3 2 4 ((3 : ℚ) / 4)) ⟨1, 0, 2⟩ ⟨0, 2, 0, 2, 0, 2⟩) = true
    ∧ okData (reconstruct (constT 3 3 2 4 ((3 : ℚ) / 4)) ⟨1, 0, 2⟩ ⟨0, 2, 0, 2, 0, 2⟩) 0 1 1 1
      = (3 : ℚ) / 4
    ∧ okData (reconstruct (constT 3 3 2 4 ((3 : ℚ) / 4)) ⟨1, 0, 2⟩ ⟨0, 2, 0, 2, 0, 2⟩) 0 100 1 1
      = 0 := by
  have h1 := reconstruct_constant_inside_window ⟨1, 0, 2⟩ ⟨0, 2, 0, 2, 0, 2⟩ ((3 : ℚ) / 4)
    (constT 3 3 2 4 ((3 : ℚ) / 4)) (by decide) (by decide) (by decide) (by decide) (by decide)
    (by decide) rfl (by decide) (by decide) (by decide) (fun _ _ _ _ => rfl)
    0 1 1 1 (by decide) (by decide) (by decide) (by decide)
  have h2 := reconstruct_constant_inside_window ⟨1, 0, 2⟩ ⟨0, 2, 0, 2, 0, 2⟩ ((3 : ℚ) / 4)
    (constT 3 3 2 4 ((3 : ℚ) / 4)) (by decide) (by decide) (by decide) (by decide) (by decide)
    (by decide) rfl (by decide) (by decide) (by decide) (fun _ _ _ _ => rfl)
    0 100 1 1 (by decide) (by decide) (by decide) (by decide)
  refine ⟨h1.1, ?_, ?_⟩
  · rw [h1.2]
    rw [if_pos (by decide)]
  · rw [h2.2]
    rw [if_neg (by decide)]

/-- Claim C6: under the PadSpec invariant (pad at most the axis length),
truncation reduces each spatial axis by exactly its pad amount, keeps the
channel extent, and preserves the leading region of the data (element `i` of
the truncated tensor is element `i` of the raw output). -/
theorem truncate_strips_pad (t : Tensor4) (p : PadSpec)
    (hz : p.pz ≤ t.z) (hy : p.py ≤ t.y) (hx : p.px ≤ t.x) :
    (truncate t p).c = t.c ∧ (truncate t p).z = t.z - p.pz ∧ (truncate t p).y = t.y - p.py
      ∧ (truncate t p).x = t.x - p.px
      ∧ ∀ a i j k, (truncate t p).data a i j k = t.data a i j k :=
  ⟨rfl, by simp only [truncate]; exact truncAx_sub _ _ hz,
    by simp only [truncate]; exact truncAx_sub _ _ hy,
    by simp only [truncate]; exact truncAx_sub _ _ hx,
    fun _ _ _ _ => rfl⟩

/-- Witness for C6: a 3 x 5 x 5 x 5 tensor with pads (2, 1, 3). -/
theorem truncate_strips_pad_witness :
    ((2 : ℕ) ≤ 5 ∧ (1 : ℕ) ≤ 5 ∧ (3 : ℕ) ≤ 5)
    ∧ (truncate (constT 3 5 5 5 0) ⟨2, 1, 3⟩).z = 3
    ∧ (truncate (constT 3 5 5 5 0) ⟨2, 1, 3⟩).y = 4
    ∧ (truncate (constT 3 5 5 5 0) ⟨2, 1, 3⟩).x = 2
    ∧ (truncate (constT 3 5 5 5 0) ⟨2, 1, 3⟩).data 0 0 0 0 = 0 := by
  have h := truncate_strips_pad (constT 3 5 5 5 0) ⟨2, 1, 3⟩ (by decide) (by decide) (by decide)
  exact ⟨⟨by decide, by decide, by decide⟩, h.2.1, h.2.2.1, h.2.2.2.1, h.2.2.2.2 0 0 0 0⟩

/-- Claim C7: the array-level label decoding of the source (threshold every
channel at 0.5; `et = mask0`; `net = mask1 AND NOT et`; `ed = mask2 AND NOT
mask1`; zero-initialised output assigned `et` to 4, then `net` to 1, then `ed`
to 2) agrees voxelwise with the claimed per-voxel hierarchy, and on the claimed
probability triples it yields labels 4, 1, 2 and 0 respectively. -/
theorem label_decode_hierarchy :
    (∀ (f : Tensor4) (i j k : ℕ),
      decodeField f i j k
        = decodeVoxelSpec (f.data 0 i j k) (f.data 1 i j k) (f.data 2 i j k))
    ∧ decodeVoxelSpec ((9 : ℚ) / 10) ((9 : ℚ) / 10) ((9 : ℚ) / 10) = 4
    ∧ decodeVoxelSpec ((1 : ℚ) / 10) ((9 : ℚ) / 10) ((9 : ℚ) / 10) = 1
    ∧ decodeVoxelSpec ((1 : ℚ) / 10) ((1 : ℚ) / 10) ((9 : ℚ) / 10) = 2
    ∧ decodeVoxelSpec ((1 : ℚ) / 10) ((1 : ℚ) / 10) ((1 : ℚ) / 10) = 0 :=
  ⟨fun _ _ _ _ => rfl, by norm_num [decodeVoxelSpec], by norm_num [decodeVoxelSpec],
    by norm_num [decodeVoxelSpec], by norm_num [decodeVoxelSpec]⟩

/-- Claim C8: at every instant of the per-model loop of a case — after any
prefix of the device-event trace — at most one model's weights are resident on
the accelerator, for every ensemble and whether or not TTA is requested: each
model is loaded after the previous one was unloaded (or after the loop froze on
an error, in which case no further model is loaded). -/
theorem at_most_one_model_resident (cd : CaseData) (tf : Bool) (ms : List ModelDesc) (n : ℕ) :
    resCount ((runLoop cd tf ms).trace.take n) ≤ 1 :=
  (foldl_stateOk cd tf ms initState
    ⟨fun n => by simp [initState, resCount, resFrom], fun _ => rfl⟩).1 n

/-- Claim C9: the ensemble reduction of a single accumulated PredictionField
returns that field unchanged — `torch.stack([A]).mean(dim=0)` is exactly `A`. -/
theorem mean_singleton_identity (A : Tensor4) : stackMean [A] = Except.ok A := by
  cases A with
  | mk c z y x d =>
    simp only [stackMean, List.all_nil, if_true]
    congr 1
    simp only [Tensor4.mk.injEq, true_and]
    funext a i j k
    simp [List.sum_cons]

/-- Claim C10 (counterexample): input selection is NOT total "only when every
model's variant is minmax or zscore": an ensemble whose first model requires
minmax and whose second declares the unrecognised variant "foo" completes the
loop without any unbound-variable error — the second model silently reuses the
first model's binding. -/
theorem later_invalid_norm_still_total_cex :
    ¬(mFoo.norm = "minmax" ∨ mFoo.norm = "zscore")
    ∧ (runLoop goodCase false [mFit, mFoo]).err = none
    ∧ (runLoop goodCase false [mFit, mFoo]).preds.length = 2 := by
  decide

/-- Claim C10 (amended): if the FIRST model of the ensemble declares a variant
other than minmax or zscore, then no input tensor, pad spec or crop metadata is
ever bound, the case fails with an unbound-variable error before any forward
computation, and no prediction is accumulated. -/
theorem first_invalid_norm_unbound (cd : CaseData) (tf : Bool) (m : ModelDesc)
    (rest : List ModelDesc) (h1 : m.norm ≠ "minmax") (h2 : m.norm ≠ "zscore") :
    (runLoop cd tf (m :: rest)).err = some ErrKind.unboundLocal
    ∧ (runLoop cd tf (m :: rest)).bound = none
    ∧ (runLoop cd tf (m :: rest)).preds = [] := by
  have hb : routeBound cd initState m = none := by
    unfold routeBound
    rw [if_neg (fun hh => Option.noConfusion hh), if_neg h1, if_neg h2]
    rfl
  have hstep : stepModel cd tf initState m =
      { initState with bound := none,
                       trace := initState.trace ++ (routeEvents initState m ++ [Event.load]),
                       err := some ErrKind.unboundLocal } := by
    unfold stepModel
    rw [if_neg (by simp [initState]), hb]
  unfold runLoop
  rw [List.foldl_cons, hstep]
  rw [foldl_frozen cd tf rest
    { initState with bound := none,
                     trace := initState.trace ++ (routeEvents initState m ++ [Event.load]),
                     err := some ErrKind.unboundLocal } rfl]
  exact ⟨rfl, rfl, rfl⟩

/-- Witness for C10 (amended): a single-model ensemble declaring "foo". -/
theorem first_invalid_norm_unbound_witness :
    (mFoo.norm ≠ "minmax") ∧ (mFoo.norm ≠ "zscore")
    ∧ (runLoop goodCase false [mFoo]).err = some ErrKind.unboundLocal
    ∧ (runLoop goodCase false [mFoo]).bound = none
    ∧ (runLoop goodCase false [mFoo]).preds = [] := by
  have h := first_invalid_norm_unbound goodCase false mFoo [] (by decide) (by decide)
  exact ⟨by decide, by decide, h.1, h.2.1, h.2.2⟩
